import Mathlib

/-!
Shallow embedding of the multi-crop leaf disease detection pipeline
(training, evaluation and post-training quantization scripts).

Python strings are modelled as lists of characters (`Str`), fallible
Python code (KeyError, FileNotFoundError, ZeroDivisionError, ValueError)
as `Except String`, and real-number arithmetic as `ℚ`.  External
framework calls (Keras fitting, the TFLite converter, the interpreter)
are abstracted to the data they hand back to code owned by the repository;
everything the repository itself computes is translated directly from
the source.
-/

namespace LeafDisease

/-- Python `str` modelled as a list of characters. -/
abbrev Str := List Char

/-- Python truthiness of an optional string argument: `None` and the
empty string are falsy, every other string is truthy. -/
def optTruthy : Option Str → Bool
  | none => false
  | some s => !s.isEmpty

/-- Python `str.lower` (per-character lowercasing). -/
def toLowerStr (s : Str) : Str := s.map Char.toLower

/-! ## `quantization/post_training_quant.py`: `convert_to_tflite` converter setup -/

/-- The TFLite converter attributes that `convert_to_tflite` assigns
(`optimizations`, `representative_dataset`, `target_spec.supported_ops`,
`inference_input_type`, `inference_output_type`). -/
structure ConverterConfig where
  optimizationsDefault : Bool
  hasRepresentativeDataset : Bool
  supportedOpsInt8 : Bool
  inferenceInputUint8 : Bool
  inferenceOutputUint8 : Bool
deriving DecidableEq

/-- A converter fresh from `TFLiteConverter.from_keras_model`: no
optimizations, no representative dataset, no integer-only ops, default
inference types. -/
def freshConverter : ConverterConfig :=
  ⟨false, false, false, false, false⟩

/-- The converter attribute assignments performed by `convert_to_tflite`
(post_training_quant.py lines 66-88): under `quantize` it sets
`optimizations = [tf.lite.Optimize.DEFAULT]`, and under the Python
truthiness test `if representative_data_dir:` it additionally installs
the representative dataset, `TFLITE_BUILTINS_INT8` ops and `uint8`
inference input/output types. -/
def configureConverter (quantize : Bool) (representativeDataDir : Option Str) :
    ConverterConfig :=
  let converter := freshConverter
  if quantize then
    let converter := { converter with optimizationsDefault := true }
    if optTruthy representativeDataDir then
      { converter with
        hasRepresentativeDataset := true
        supportedOpsInt8 := true
        inferenceInputUint8 := true
        inferenceOutputUint8 := true }
    else
      converter
  else
    converter

/-- Full integer quantization as the spec words it: representative
dataset installed, integer-only builtin ops, and `uint8` inference
input and output types. -/
def fullIntegerUint8Config : ConverterConfig :=
  ⟨true, true, true, true, true⟩

/-- Dynamic range quantization only, as the spec words it: default
optimizations but no representative dataset, no integer-only ops and
no `uint8` input/output types. -/
def dynamicRangeOnlyConfig : ConverterConfig :=
  ⟨true, false, false, false, false⟩

/-! ## `training/train.py`: the two training phases of `train_model` -/

/-- Observable training actions performed by `train_model` after the
model is first compiled: a `model.fit` call (with its `initial_epoch`
and `epochs` arguments), the `unfreeze_base_model` call, and the
fine-tuning recompile with an Adam optimizer. -/
inductive TrainEvent where
  | fit (initialEpoch : ℕ) (epochs : ℕ)
  | unfreeze (fromLayer : ℕ)
  | recompileAdam (learningRate : ℚ)
deriving DecidableEq

/-- The `training` section of the YAML configuration, with exactly the
keys `train_model` reads from it.  Keys read via `.get(...)` carry an
`Option`; `epochs` is read with `config["training"]["epochs"]` inside
the fine-tuning branch and is kept total here (claim C4 treats missing
required keys through the full config pipeline). -/
structure TrainingSection where
  unfreeze_epoch : Option ℕ
  freeze_base : Option Bool
  freeze_until_layer : Option ℕ
  fine_tune_learning_rate : Option ℚ
  epochs : ℕ
deriving DecidableEq

/-- The sequence of fit/unfreeze/recompile actions of `train_model`
(train.py lines 111-153): phase 1 fits for `unfreeze_epoch` (default
10) epochs; then, only under `config["training"].get("freeze_base",
True)`, it unfreezes from `freeze_until_layer` (default 100),
recompiles with Adam at `fine_tune_learning_rate` (default 0.0001) and
fits from `initial_epoch = unfreeze_epoch` up to `epochs`. -/
def trainPhases (t : TrainingSection) : List TrainEvent :=
  let initialEpochs := t.unfreeze_epoch.getD 10
  let phase1 := [TrainEvent.fit 0 initialEpochs]
  if t.freeze_base.getD true then
    let unfreezeFrom := t.freeze_until_layer.getD 100
    let fineTuneLr := t.fine_tune_learning_rate.getD (1 / 10000)
    phase1 ++
      [TrainEvent.unfreeze unfreezeFrom,
       TrainEvent.recompileAdam fineTuneLr,
       TrainEvent.fit initialEpochs t.epochs]
  else
    phase1

/-! ## `quantization/post_training_quant.py`: `evaluate_tflite_model` -/

/-- One element of the test dataset as `evaluate_tflite_model` sees it
after the interpreter ran: the argmax of the model output and the
argmax of the one-hot label.  The interpreter itself is external; the
logic of the repository itself only compares these two class indices. -/
structure Sample where
  predictedClass : ℕ
  trueClass : ℕ
deriving DecidableEq

/-- The counting loop of `evaluate_tflite_model` (post_training_quant.py
lines 150-183): iterate over the dataset (batch size 1, so one sample
per element), break as soon as `total >= num_samples`, increment
`correct` when the predicted class equals the true class, and increment
`total` each processed sample.  Returns `(correct, total)`. -/
def tallyLoop (numSamples : ℕ) : List Sample → ℕ → ℕ → ℕ × ℕ
  | [], correct, total => (correct, total)
  | s :: rest, correct, total =>
    if numSamples ≤ total then (correct, total)
    else
      tallyLoop numSamples rest
        (if s.predictedClass = s.trueClass then correct + 1 else correct)
        (total + 1)

/-- Python division of two machine integers yielding a real number:
raises `ZeroDivisionError` when the denominator is zero. -/
def pyDivNat (a b : ℕ) : Except String ℚ :=
  if b = 0 then .error "ZeroDivisionError: division by zero"
  else .ok ((a : ℚ) / (b : ℚ))

/-- The accuracy computation of `evaluate_tflite_model`
(post_training_quant.py lines 147-188): tally correct predictions over
at most `num_samples` dataset elements and return `correct / total`. -/
def evaluate_tflite_model (testSamples : List Sample) (numSamples : ℕ) :
    Except String ℚ :=
  let ct := tallyLoop numSamples testSamples 0 0
  pyDivNat ct.1 ct.2

/-! ## `training/utils.py`: `compute_class_weights` -/

/-- One entry of `os.listdir(data_dir)`: its name, whether it is a
directory, and (when a directory) the names of the files inside it. -/
structure DirEntry where
  name : Str
  isDir : Bool
  files : List Str
deriving DecidableEq

/-- Lexicographic comparison of strings, the order Python `sorted` uses
on `str`. -/
def strLe : Str → Str → Bool
  | [], _ => true
  | _ :: _, [] => false
  | a :: as, b :: bs => if a = b then strLe as bs else decide (a < b)

/-- Insertion step of the sort used to model Python `sorted`. -/
def insertByName (x : DirEntry) : List DirEntry → List DirEntry
  | [] => [x]
  | y :: ys => if strLe y.name x.name then y :: insertByName x ys else x :: y :: ys

/-- Stable sort of directory entries by name, modelling Python
`sorted` on the subdirectory names. -/
def sortByName : List DirEntry → List DirEntry
  | [] => []
  | x :: xs => insertByName x (sortByName xs)

/-- The filename test of `compute_class_weights` (utils.py line 124):
`f.lower().endswith((".png", ".jpg", ".jpeg"))`. -/
def isImageFile (f : Str) : Bool :=
  let l := toLowerStr f
  ".png".data.isSuffixOf l || ".jpg".data.isSuffixOf l ||
    ".jpeg".data.isSuffixOf l

/-- Number of recognized image files in one class subdirectory
(utils.py lines 120-126). -/
def classImageCount (e : DirEntry) : ℕ :=
  (e.files.filter isImageFile).length

/-- The per-class image counts of `compute_class_weights` (utils.py
lines 113-127): subdirectories of `data_dir`, sorted by name, each
mapped to its recognized-image count; index `i` of this list is the
key `i` of the Python `class_counts` dict. -/
def classCounts (entries : List DirEntry) : List ℕ :=
  (sortByName (entries.filter (·.isDir))).map classImageCount

/-- The weight computation of `compute_class_weights` (utils.py lines
129-134): `total / (len(class_counts) * count)` for each class; the
dict comprehension raises `ZeroDivisionError` as soon as some class
count is zero. -/
def compute_class_weights (entries : List DirEntry) : Except String (List ℚ) :=
  let counts := classCounts entries
  let total := counts.sum
  if counts.all (· != 0) then
    .ok (counts.map fun (count : ℕ) =>
      (total : ℚ) / ((counts.length : ℚ) * (count : ℚ)))
  else
    .error "ZeroDivisionError: division by zero"

/-! ## `training/evaluate.py`: per-class metrics of `evaluate_model`

The metric arithmetic lives in scikit-learn; the definitions below
translate `precision_recall_fscore_support(y_true, y_pred,
average=None, labels=range(len(class_names)))` following that
documented behaviour of that function (per-label tp/fp/fn counting, with the
default `zero_division` treating 0/0 as 0), which is all `evaluate_model`
relies on. -/

/-- Division with the scikit-learn `zero_division=0` convention. -/
def metricDiv (a b : ℕ) : ℚ :=
  if b = 0 then 0 else (a : ℚ) / (b : ℚ)

/-- Precision, recall, f1 and support of one label over paired
true/predicted label sequences. -/
def labelMetrics (yTrue yPred : List ℕ) (l : ℕ) : ℚ × ℚ × ℚ × ℕ :=
  let pairs := List.zip yTrue yPred
  let tp := pairs.countP fun p => p.1 == l && p.2 == l
  let predPos := pairs.countP fun p => p.2 == l
  let support := pairs.countP fun p => p.1 == l
  let precision := metricDiv tp predPos
  let recl := metricDiv tp support
  let f1 := if precision + recl = 0 then 0
            else 2 * precision * recl / (precision + recl)
  (precision, recl, f1, support)

/-- The per-class metric arrays computed by `evaluate_model`
(evaluate.py lines 91-93): one `(precision, recall, f1, support)`
entry per label in `labels=range(len(class_names))`. -/
def perClassMetrics (classNames : List Str) (yTrue yPred : List ℕ) :
    List (ℚ × ℚ × ℚ × ℕ) :=
  (List.range classNames.length).map (labelMetrics yTrue yPred)

/-! ## `training/train.py`: configuration access and `get_model` -/

/-- The YAML configuration as parsed by `yaml.safe_load`, restricted to
the keys the `train_model` pipeline reads with mandatory `config[...]`
indexing before and during model construction and compilation.  A
`none` field models an absent key. -/
structure Config where
  seed : Option ℤ
  dataset_train_dir : Option Str
  dataset_val_dir : Option Str
  dataset_batch_size : Option ℕ
  model_architecture : Option Str
  model_input_shape : Option (List ℕ)
  model_num_classes : Option ℕ
  model_dropout_rate : Option ℚ
  model_weights : Option Str
  optimizer_name : Option Str
  optimizer_learning_rate : Option ℚ
  loss_name : Option Str
  training : Option TrainingSection
deriving DecidableEq

/-- Mandatory dictionary indexing `config[key]`: raises `KeyError`
when the key is absent, with no handler anywhere in the repository. -/
def req {α : Type} (v : Option α) (key : String) : Except String α :=
  match v with
  | some a => .ok a
  | none => .error ("KeyError: " ++ key)

/-- The architecture dispatch of `get_model` (model.py lines 122-138):
lowercase the name, accept `mobilenetv2` and the two EfficientNet
spellings, and raise `ValueError` for anything else. -/
def get_model (architecture : Str) : Except String String :=
  if toLowerStr architecture = "mobilenetv2".data then
    .ok "mobilenetv2"
  else if toLowerStr architecture = "efficientnet".data ∨
      toLowerStr architecture = "efficientnet_lite0".data then
    .ok "efficientnet"
  else
    .error ("ValueError: Unknown architecture: " ++ String.mk architecture)

/-- The `load_config` helper (train.py lines 24-28): `open` raises
`FileNotFoundError` when the path is not among the config files; the
YAML parse itself is external, so the file store maps paths directly
to parsed configurations. -/
def load_config (files : List (Str × Config)) (path : Str) :
    Except String Config :=
  match files.lookup path with
  | some config => .ok config
  | none => .error "FileNotFoundError"

/-- The error-relevant pipeline of `train_model` (train.py lines
58-153): load the config, then perform the mandatory key accesses in
source order (the architecture is first read at line 67 for logging,
the seed at line 70, the dataset keys at lines 75-79, the model keys
at lines 93-98, the optimizer/loss keys inside `compile_model` at
lines 35-46, and the `training` section from line 116 on), call
`get_model`, and run the two training phases.  Keys read with `.get`
carry defaults and cannot raise; callback and export wiring performs
no computation of its own and is not modelled.  No stage catches an
error: every `Except.error` propagates unchanged to the result. -/
def train_model (files : List (Str × Config)) (configPath : Str) :
    Except String (String × List TrainEvent) := do
  let config ← load_config files configPath
  let _archForLog ← req config.model_architecture "architecture"
  let _seed ← req config.seed "seed"
  let _trainDir ← req config.dataset_train_dir "train_dir"
  let _valDir ← req config.dataset_val_dir "val_dir"
  let _batchSize ← req config.dataset_batch_size "batch_size"
  let _inputShape ← req config.model_input_shape "input_shape"
  let architecture ← req config.model_architecture "architecture"
  let _numClasses ← req config.model_num_classes "num_classes"
  let _dropoutRate ← req config.model_dropout_rate "dropout_rate"
  let _weights ← req config.model_weights "weights"
  let arch ← get_model architecture
  let _optimizerName ← req config.optimizer_name "name"
  let _learningRate ← req config.optimizer_learning_rate "learning_rate"
  let _lossName ← req config.loss_name "name"
  let trainingSection ← req config.training "training"
  .ok (arch, trainPhases trainingSection)

/-! ## `quantization/post_training_quant.py`: `convert_to_tflite` I/O -/

/-- A minimal file system: files with byte contents, plus the set of
directories that exist. -/
structure FileSystem where
  fsFiles : List (Str × List ℕ)
  fsDirs : List Str
deriving DecidableEq

/-- POSIX `os.path.dirname`: the part of the path up to the last `/`,
with trailing slashes stripped unless the head is all slashes. -/
def dirname (p : Str) : Str :=
  let head := (p.reverse.dropWhile (fun c => !(c == '/'))).reverse
  if head.isEmpty then []
  else if head.all (fun c => c == '/') then head
  else (head.reverse.dropWhile (fun c => c == '/')).reverse

/-- The `os.makedirs(d, exist_ok=True)` call: raises
`FileNotFoundError` on the empty path, otherwise records the directory
(the created ancestors are not observed by any claim and are elided). -/
def makedirs (fs : FileSystem) (d : Str) : Except String FileSystem :=
  if d.isEmpty then .error "FileNotFoundError"
  else .ok { fs with fsDirs := d :: fs.fsDirs }

/-- Writing a file: binary-mode `open(path, "wb")` plus `write`,
replacing any previous content at that path. -/
def writeFile (fs : FileSystem) (p : Str) (bytes : List ℕ) : FileSystem :=
  { fs with fsFiles := (p, bytes) :: fs.fsFiles.filter (fun q => !(q.1 == p)) }

/-- The I/O skeleton of `convert_to_tflite` (post_training_quant.py
lines 42-113): load the model (Keras raises when the file is absent),
configure the converter, run the external conversion (abstracted as
the byte string `tfliteBytes` it produces), create the parent of the output
directory, write the bytes to `output_path`, and return `output_path`.
The size reporting reads files without modifying them. -/
def convert_to_tflite (fs : FileSystem) (modelPath outputPath : Str)
    (quantize : Bool) (representativeDataDir : Option Str)
    (tfliteBytes : List ℕ) :
    Except String (FileSystem × Str × ConverterConfig) :=
  match fs.fsFiles.lookup modelPath with
  | none => .error "OSError: model file not found"
  | some _ =>
    let converter := configureConverter quantize representativeDataDir
    match makedirs fs (dirname outputPath) with
    | .error e => .error e
    | .ok fs1 =>
      let fs2 := writeFile fs1 outputPath tfliteBytes
      .ok (fs2, outputPath, converter)

/-! ## `quantization/post_training_quant.py`: the `--quantize` flag -/

/-- An argparse `store_true` flag with an explicit default: the parsed
value is `True` when the flag appears on the command line and the
default otherwise. -/
def parse_store_true (args : List Str) (flag : Str) (dflt : Bool) : Bool :=
  if args.contains flag then true else dflt

/-- The value `main` passes as `quantize=` to `convert_to_tflite`
(post_training_quant.py lines 254-280): the `--quantize` argument is
declared with `action="store_true"` and `default=True`. -/
def quantizeFlagValue (args : List Str) : Bool :=
  parse_store_true args "--quantize".data true

/-! ## `training/utils.py`: `save_class_names` / `load_class_names` -/

/-- The whitespace set of Python `str.strip()`. -/
def pyIsSpace (c : Char) : Bool :=
  c == ' ' || c == '\t' || c == '\n' || c == '\r' || c == '\x0b' || c == '\x0c'

/-- Python `str.strip()` on the left: drop leading whitespace. -/
def lstripChars (s : Str) : Str := s.dropWhile pyIsSpace

/-- Python `str.strip()` on the right: drop trailing whitespace. -/
def rstripChars (s : Str) : Str := (s.reverse.dropWhile pyIsSpace).reverse

/-- Python `str.strip()`: drop leading and trailing whitespace. -/
def pyStrip (s : Str) : Str := rstripChars (lstripChars s)

/-- The file content produced by `save_class_names` (utils.py lines
239-244): each name followed by a newline, concatenated in order. -/
def save_class_names (classNames : List Str) : Str :=
  (classNames.map (fun name => name ++ ['\n'])).flatten

/-- Python `f.readlines()`: split the content into lines, each keeping
its terminating newline; a last line without a newline is kept as is,
and the empty content yields no lines. -/
def readLines : Str → List Str
  | [] => []
  | c :: cs =>
    if c = '\n' then ['\n'] :: readLines cs
    else
      match readLines cs with
      | [] => [[c]]
      | l :: ls => (c :: l) :: ls

/-- The `load_class_names` helper (utils.py lines 247-251):
`[line.strip() for line in f.readlines()]`. -/
def load_class_names (content : Str) : List Str :=
  (readLines content).map pyStrip

/-! ## Helper lemmas -/

/-- Bind on `Except` after a success just applies the continuation. -/
@[simp] theorem exceptBind_ok {α β : Type} (a : α) (f : α → Except String β) :
    ((Except.ok a : Except String α) >>= f) = f a := rfl

/-- Bind on `Except` after an error keeps the error unchanged. -/
@[simp] theorem exceptBind_error {α β : Type} (e : String) (f : α → Except String β) :
    ((Except.error e : Except String α) >>= f) = Except.error e := rfl

/-- Mandatory key access succeeds on a present key. -/
@[simp] theorem req_some {α : Type} (a : α) (k : String) : req (some a) k = .ok a := rfl

/-- Mandatory key access on an absent key raises `KeyError`. -/
@[simp] theorem req_none {α : Type} (k : String) :
    req (none : Option α) k = .error ("KeyError: " ++ k) := rfl

/-! ## Claim theorems -/

/-- C2, counterexample: calling `convert_to_tflite` with `quantize=True`
and the provided (non-`None`) but empty representative data directory
configures only dynamic range quantization, not the full integer
`uint8` configuration the claim asserts for every provided directory. -/
theorem c2_counterexample :
    configureConverter true (some []) = dynamicRangeOnlyConfig ∧
    configureConverter true (some []) ≠ fullIntegerUint8Config := by
  exact ⟨rfl, by decide⟩

/-- C2, amended: for every call with `quantize=True`, if the
representative data directory is provided and non-empty the converter
is configured for full integer quantization with `uint8` inference
input and output types, and otherwise (absent or empty) only dynamic
range quantization is configured with no `uint8` types set. -/
theorem c2_quantize_converter_configuration (d : Option Str) :
    configureConverter true d =
      if optTruthy d then fullIntegerUint8Config else dynamicRangeOnlyConfig := by
  cases d with
  | none => rfl
  | some s =>
    cases s with
    | nil => rfl
    | cons c cs => rfl

/-- C1, counterexample: with `training.freeze_base = False` in the
configuration, `train_model` runs only the first (frozen-base) fit and
never unfreezes, recompiles, or fits a second time, so the second
phase does not follow the first for every configuration. -/
theorem c1_counterexample :
    trainPhases ⟨none, some false, none, none, 20⟩ = [TrainEvent.fit 0 10] ∧
    TrainEvent.unfreeze 100 ∉ trainPhases ⟨none, some false, none, none, 20⟩ ∧
    TrainEvent.fit 10 20 ∉ trainPhases ⟨none, some false, none, none, 20⟩ := by
  refine ⟨rfl, ?_, ?_⟩ <;> decide

/-- C1, amended: whenever `training.freeze_base` is absent or `True`
(its default), `train_model` executes exactly the two ordered phases:
a fit of `training.unfreeze_epoch` epochs (default 10) with the base
frozen, then the unfreeze from `training.freeze_until_layer` (default
100), the recompile with Adam at `training.fine_tune_learning_rate`
(default 0.0001), and the fit from `initial_epoch = unfreeze_epoch` up
to `training.epochs`; with `freeze_base = False` only the first phase
runs. -/
theorem c1_two_phase_schedule (t : TrainingSection)
    (h : t.freeze_base.getD true = true) :
    trainPhases t =
      [TrainEvent.fit 0 (t.unfreeze_epoch.getD 10),
       TrainEvent.unfreeze (t.freeze_until_layer.getD 100),
       TrainEvent.recompileAdam (t.fine_tune_learning_rate.getD (1 / 10000)),
       TrainEvent.fit (t.unfreeze_epoch.getD 10) t.epochs] := by
  simp [trainPhases, h]

/-- Witness for C1: a configuration with every optional training key
absent and 25 total epochs yields the two-phase schedule with the
documented defaults. -/
theorem c1_two_phase_schedule_witness :
    trainPhases ⟨none, none, none, none, 25⟩ =
      [TrainEvent.fit 0 10, TrainEvent.unfreeze 100,
       TrainEvent.recompileAdam (1 / 10000), TrainEvent.fit 10 25] :=
  c1_two_phase_schedule ⟨none, none, none, none, 25⟩ rfl

/-- C5: the per-class precision, recall, f1 and support arrays computed
by `evaluate_model` each have length exactly `len(class_names)`, for
every pair of true/predicted label sequences, including when some
class never occurs in them. -/
theorem c5_metric_array_lengths (classNames : List Str) (yTrue yPred : List ℕ) :
    ((perClassMetrics classNames yTrue yPred).map fun r => r.1).length
        = classNames.length ∧
    ((perClassMetrics classNames yTrue yPred).map fun r => r.2.1).length
        = classNames.length ∧
    ((perClassMetrics classNames yTrue yPred).map fun r => r.2.2.1).length
        = classNames.length ∧
    ((perClassMetrics classNames yTrue yPred).map fun r => r.2.2.2).length
        = classNames.length := by
  simp [perClassMetrics]

/-- C7: the parsed value of the `--quantize` argument (declared with
`action="store_true"` and `default=True`) is `True` on the concrete
command line that omits the flag, and indeed on every command line, so
the flag cannot disable quantization as the spec describes. -/
theorem c7_quantize_flag_is_no_op :
    quantizeFlagValue ["--model_path".data, "m.h5".data,
        "--output_path".data, "o.tflite".data] = true ∧
    ∀ args : List Str, quantizeFlagValue args = true := by
  refine ⟨rfl, ?_⟩
  intro args
  unfold quantizeFlagValue parse_store_true
  cases h : args.contains "--quantize".data <;> simp [h]

/-- The number of samples the tally loop processes: it stops at the
`num_samples` cap or at the end of the dataset, whichever comes first. -/
theorem tallyLoop_total (numSamples : ℕ) (rest : List Sample) :
    ∀ c t : ℕ, (tallyLoop numSamples rest c t).2 =
      if numSamples ≤ t then t else t + min (numSamples - t) rest.length := by
  induction rest with
  | nil =>
    intro c t
    simp [tallyLoop]
  | cons s rest ih =>
    intro c t
    simp only [tallyLoop]
    by_cases h : numSamples ≤ t
    · simp [h]
    · simp only [h, if_neg h, if_false]
      rw [ih]
      simp only [List.length_cons]
      split_ifs with h2 <;> omega

/-- The tally loop never counts more correct samples than processed
samples. -/
theorem tallyLoop_correct_le (numSamples : ℕ) (rest : List Sample) :
    ∀ c t : ℕ, c ≤ t →
      (tallyLoop numSamples rest c t).1 ≤ (tallyLoop numSamples rest c t).2 := by
  induction rest with
  | nil =>
    intro c t h
    simpa [tallyLoop] using h
  | cons s rest ih =>
    intro c t h
    simp only [tallyLoop]
    by_cases hN : numSamples ≤ t
    · simpa [hN] using h
    · simp only [hN, if_neg hN, if_false]
      apply ih
      split_ifs <;> omega

/-- C3: whenever `evaluate_tflite_model` processes at least one sample,
it returns the accuracy `correct / total` with
`total = min(num_samples, dataset size)` and `0 ≤ correct ≤ total`,
hence the accuracy lies in `[0, 1]`. -/
theorem c3_accuracy_in_unit_interval (testSamples : List Sample)
    (numSamples correct total : ℕ)
    (hct : tallyLoop numSamples testSamples 0 0 = (correct, total))
    (hpos : 0 < total) :
    evaluate_tflite_model testSamples numSamples
        = .ok ((correct : ℚ) / (total : ℚ)) ∧
    total = min numSamples testSamples.length ∧
    correct ≤ total ∧
    0 ≤ (correct : ℚ) / (total : ℚ) ∧
    (correct : ℚ) / (total : ℚ) ≤ 1 := by
  have htot := tallyLoop_total numSamples testSamples 0 0
  have hcle := tallyLoop_correct_le numSamples testSamples 0 0 (le_refl 0)
  rw [hct] at htot hcle
  have htpos : (0 : ℚ) < (total : ℚ) := by exact_mod_cast hpos
  refine ⟨?_, ?_, hcle, ?_, ?_⟩
  · unfold evaluate_tflite_model pyDivNat
    rw [hct]
    simp [hpos.ne']
  · simp only at htot
    split_ifs at htot <;> omega
  · positivity
  · rw [div_le_one htpos]
    exact_mod_cast hcle

/-- Witness for C3: a dataset of two samples with one correct
prediction and a cap of 5 yields accuracy 1/2. -/
theorem c3_accuracy_in_unit_interval_witness :
    evaluate_tflite_model [⟨1, 1⟩, ⟨0, 2⟩] 5
        = .ok (((1 : ℕ) : ℚ) / ((2 : ℕ) : ℚ)) ∧
    2 = min 5 ([⟨1, 1⟩, ⟨0, 2⟩] : List Sample).length ∧
    (1 : ℕ) ≤ 2 ∧
    0 ≤ ((1 : ℕ) : ℚ) / ((2 : ℕ) : ℚ) ∧
    ((1 : ℕ) : ℚ) / ((2 : ℕ) : ℚ) ≤ 1 :=
  c3_accuracy_in_unit_interval [⟨1, 1⟩, ⟨0, 2⟩] 5 1 2 rfl (by decide)

/-- Membership is preserved by the insertion step of the sort. -/
theorem mem_insertByName (x y : DirEntry) (l : List DirEntry) :
    y ∈ insertByName x l ↔ y = x ∨ y ∈ l := by
  induction l with
  | nil => simp [insertByName]
  | cons z zs ih =>
    simp only [insertByName]
    split_ifs with h
    · simp only [List.mem_cons, ih]
      tauto
    · simp only [List.mem_cons]

/-- Sorting by name preserves membership. -/
theorem mem_sortByName (y : DirEntry) (l : List DirEntry) :
    y ∈ sortByName l ↔ y ∈ l := by
  induction l with
  | nil => simp [sortByName]
  | cons x xs ih => simp [sortByName, mem_insertByName, ih]

/-- C9: both unguarded divisions are reachable: `evaluate_tflite_model`
raises `ZeroDivisionError` on an empty test dataset or a zero sample
cap (so `total = 0`), and `compute_class_weights` raises
`ZeroDivisionError` whenever some class subdirectory contains no file
with a recognized image extension (so its count is 0). -/
theorem c9_reachable_divisions_by_zero :
    (∀ numSamples : ℕ,
        evaluate_tflite_model [] numSamples
          = .error "ZeroDivisionError: division by zero") ∧
    (∀ testSamples : List Sample,
        evaluate_tflite_model testSamples 0
          = .error "ZeroDivisionError: division by zero") ∧
    (∀ (entries : List DirEntry) (e : DirEntry),
        e ∈ entries → e.isDir = true → classImageCount e = 0 →
        compute_class_weights entries
          = .error "ZeroDivisionError: division by zero") := by
  refine ⟨fun numSamples => rfl, ?_, ?_⟩
  · intro testSamples
    cases testSamples <;> rfl
  · intro entries e he hdir hcount
    have hf : e ∈ entries.filter (·.isDir) := List.mem_filter.mpr ⟨he, hdir⟩
    have hs : e ∈ sortByName (entries.filter (·.isDir)) :=
      (mem_sortByName e _).mpr hf
    have h0 : (0 : ℕ) ∈ classCounts entries := by
      unfold classCounts
      rw [← hcount]
      exact List.mem_map_of_mem classImageCount hs
    have hall : (classCounts entries).all (· != 0) = false := by
      by_contra hne
      have : (classCounts entries).all (· != 0) = true := by
        cases h : (classCounts entries).all (· != 0)
        · exact absurd h hne
        · rfl
      have := List.all_eq_true.mp this 0 h0
      simp at this
    simp [compute_class_weights, hall]

/-- Witness for C9: an empty dataset, a zero sample cap, and a class
directory holding only a text file all hit the division by zero. -/
theorem c9_reachable_divisions_by_zero_witness :
    evaluate_tflite_model [] 7 = .error "ZeroDivisionError: division by zero" ∧
    evaluate_tflite_model [⟨0, 1⟩] 0
      = .error "ZeroDivisionError: division by zero" ∧
    compute_class_weights [⟨"apple".data, true, ["readme.txt".data]⟩]
      = .error "ZeroDivisionError: division by zero" :=
  ⟨c9_reachable_divisions_by_zero.1 7,
   c9_reachable_divisions_by_zero.2.1 [⟨0, 1⟩],
   c9_reachable_divisions_by_zero.2.2 _ ⟨"apple".data, true, ["readme.txt".data]⟩
     (by simp) rfl (by decide)⟩

/-- A nonempty list of positive counts has a positive sum. -/
theorem sum_pos_of_forall_pos (l : List ℕ) (hne : l ≠ [])
    (hpos : ∀ c ∈ l, 0 < c) : 0 < l.sum := by
  cases l with
  | nil => exact absurd rfl hne
  | cons c cs =>
    have := hpos c (List.mem_cons_self c cs)
    simp only [List.sum_cons]
    omega

/-- C8: for a training directory whose class subdirectories each hold
at least one recognized image, `compute_class_weights` returns, per
class index in sorted subdirectory-name order, the weight
`total / (n * count_i)`; consequently the count-weighted mean of the
weights equals 1. -/
theorem c8_class_weights_formula (entries : List DirEntry)
    (hne : classCounts entries ≠ [])
    (hpos : ∀ c ∈ classCounts entries, 0 < c) :
    compute_class_weights entries =
      .ok ((classCounts entries).map fun (count : ℕ) =>
        ((classCounts entries).sum : ℚ) /
          (((classCounts entries).length : ℚ) * (count : ℚ))) ∧
    (List.zipWith (fun (count : ℕ) (w : ℚ) => (count : ℚ) * w)
          (classCounts entries)
          ((classCounts entries).map fun (count : ℕ) =>
            ((classCounts entries).sum : ℚ) /
              (((classCounts entries).length : ℚ) * (count : ℚ)))).sum /
        ((classCounts entries).sum : ℚ) = 1 := by
  have hall : (classCounts entries).all (· != 0) = true := by
    rw [List.all_eq_true]
    intro x hx
    simpa using (hpos x hx).ne'
  have hlen : ((classCounts entries).length : ℚ) ≠ 0 := by
    have : classCounts entries ≠ [] := hne
    simpa [List.length_eq_zero] using this
  have hsum : ((classCounts entries).sum : ℚ) ≠ 0 := by
    have := sum_pos_of_forall_pos (classCounts entries) hne hpos
    exact_mod_cast this.ne'
  constructor
  · simp [compute_class_weights, hall]
  · rw [List.zipWith_map_right, List.zipWith_same]
    have hmap : (classCounts entries).map
          (fun (c : ℕ) => (c : ℚ) * (((classCounts entries).sum : ℚ) /
            (((classCounts entries).length : ℚ) * (c : ℚ))))
        = (classCounts entries).map
          (fun (_ : ℕ) => ((classCounts entries).sum : ℚ) /
            ((classCounts entries).length : ℚ)) := by
      apply List.map_congr_left
      intro c hc
      have hc0 : (c : ℚ) ≠ 0 := by exact_mod_cast (hpos c hc).ne'
      field_simp
      ring
    rw [hmap, List.map_const', List.sum_replicate, nsmul_eq_mul,
      mul_div_cancel₀ _ hlen, div_self hsum]

/-- A train directory with two class subdirectories (holding 2 and 1
recognized images) and one stray text file. -/
def sampleTrainEntries : List DirEntry :=
  [⟨"blight".data, true, ["x.PNG".data, "y.jpg".data]⟩,
   ⟨"healthy".data, true, ["z.jpeg".data]⟩,
   ⟨"notes.txt".data, false, []⟩]

/-- Witness for C8: the sample train directory yields the weight
formula and a count-weighted mean of 1. -/
theorem c8_class_weights_formula_witness :
    compute_class_weights sampleTrainEntries =
      .ok ((classCounts sampleTrainEntries).map fun (count : ℕ) =>
        ((classCounts sampleTrainEntries).sum : ℚ) /
          (((classCounts sampleTrainEntries).length : ℚ) * (count : ℚ))) ∧
    (List.zipWith (fun (count : ℕ) (w : ℚ) => (count : ℚ) * w)
          (classCounts sampleTrainEntries)
          ((classCounts sampleTrainEntries).map fun (count : ℕ) =>
            ((classCounts sampleTrainEntries).sum : ℚ) /
              (((classCounts sampleTrainEntries).length : ℚ) * (count : ℚ)))).sum /
        ((classCounts sampleTrainEntries).sum : ℚ) = 1 :=
  c8_class_weights_formula sampleTrainEntries (by decide) (by decide)

/-- C4: no stage of the pipeline catches or translates errors: a
missing configuration file opened by `load_config`, a missing required
key (`model.architecture`, `seed`, `dataset.train_dir`) accessed by
`train_model`, and the `ValueError` raised by `get_model` exactly for
architecture names whose lowercase form is not `mobilenetv2`,
`efficientnet` or `efficientnet_lite0`, all propagate unchanged to the
result of `train_model`. -/
theorem c4_errors_propagate_unchanged :
    (∀ (files : List (Str × Config)) (path : Str),
        files.lookup path = none →
        train_model files path = .error "FileNotFoundError") ∧
    (∀ (files : List (Str × Config)) (path : Str) (config : Config),
        files.lookup path = some config →
        config.model_architecture = none →
        train_model files path = .error ("KeyError: " ++ "architecture")) ∧
    (∀ (files : List (Str × Config)) (path : Str) (config : Config) (a : Str),
        files.lookup path = some config →
        config.model_architecture = some a →
        config.seed = none →
        train_model files path = .error ("KeyError: " ++ "seed")) ∧
    (∀ (files : List (Str × Config)) (path : Str) (config : Config)
        (a : Str) (sd : ℤ),
        files.lookup path = some config →
        config.model_architecture = some a →
        config.seed = some sd →
        config.dataset_train_dir = none →
        train_model files path = .error ("KeyError: " ++ "train_dir")) ∧
    (∀ architecture : Str,
        get_model architecture =
            .error ("ValueError: Unknown architecture: " ++ String.mk architecture)
          ↔ toLowerStr architecture ∉
            ["mobilenetv2".data, "efficientnet".data, "efficientnet_lite0".data]) ∧
    (∀ (files : List (Str × Config)) (path : Str) (config : Config)
        (a : Str) (sd : ℤ) (td vd : Str) (bs : ℕ) (ish : List ℕ) (nc : ℕ)
        (dr : ℚ) (w : Str) (e : String),
        files.lookup path = some config →
        config.model_architecture = some a →
        config.seed = some sd →
        config.dataset_train_dir = some td →
        config.dataset_val_dir = some vd →
        config.dataset_batch_size = some bs →
        config.model_input_shape = some ish →
        config.model_num_classes = some nc →
        config.model_dropout_rate = some dr →
        config.model_weights = some w →
        get_model a = .error e →
        train_model files path = .error e) := by
  refine ⟨?_, ?_, ?_, ?_, ?_, ?_⟩
  · intro files path h
    simp [train_model, load_config, h]
  · intro files path config h harch
    simp [train_model, load_config, h, harch]
  · intro files path config a h harch hseed
    simp [train_model, load_config, h, harch, hseed]
  · intro files path config a sd h harch hseed htd
    simp [train_model, load_config, h, harch, hseed, htd]
  · intro architecture
    unfold get_model
    by_cases h1 : toLowerStr architecture = "mobilenetv2".data
    · simp [h1]
    · by_cases h2 : toLowerStr architecture = "efficientnet".data ∨
          toLowerStr architecture = "efficientnet_lite0".data
      · simp only [if_neg h1, if_pos h2]
        constructor
        · intro h
          exact absurd h (by simp)
        · intro h
          exact absurd h (by simp [not_or, h1, h2])
      · simp only [if_neg h1, if_neg h2, List.mem_cons, List.mem_singleton]
        push_neg at h2
        simp [h1, h2.1, h2.2]
  · intro files path config a sd td vd bs ish nc dr w e
      h harch hseed htd hvd hbs hish hnc hdr hw hget
    simp [train_model, load_config, h, harch, hseed, htd, hvd, hbs, hish,
      hnc, hdr, hw, hget]

/-- A config whose `model.architecture` key is absent. -/
def cfgNoArch : Config :=
  ⟨some 42, some "data/train".data, some "data/val".data, some 32, none,
   some [224, 224, 3], some 30, some (1 / 2), some "imagenet".data,
   some "adam".data, some (1 / 1000), some "categorical_crossentropy".data,
   some ⟨none, none, none, none, 50⟩⟩

/-- A config whose `seed` key is absent. -/
def cfgNoSeed : Config :=
  ⟨none, some "data/train".data, some "data/val".data, some 32,
   some "mobilenetv2".data, some [224, 224, 3], some 30, some (1 / 2),
   some "imagenet".data, some "adam".data, some (1 / 1000),
   some "categorical_crossentropy".data, some ⟨none, none, none, none, 50⟩⟩

/-- A config whose `dataset.train_dir` key is absent. -/
def cfgNoTrainDir : Config :=
  ⟨some 42, none, some "data/val".data, some 32, some "mobilenetv2".data,
   some [224, 224, 3], some 30, some (1 / 2), some "imagenet".data,
   some "adam".data, some (1 / 1000), some "categorical_crossentropy".data,
   some ⟨none, none, none, none, 50⟩⟩

/-- A fully populated config whose architecture name is not recognized. -/
def cfgBadArch : Config :=
  ⟨some 42, some "data/train".data, some "data/val".data, some 32,
   some "resnet50".data, some [224, 224, 3], some 30, some (1 / 2),
   some "imagenet".data, some "adam".data, some (1 / 1000),
   some "categorical_crossentropy".data, some ⟨none, none, none, none, 50⟩⟩

/-- Witness for C4: each listed error is produced unchanged on a
concrete input. -/
theorem c4_errors_propagate_unchanged_witness :
    train_model [] "config.yaml".data = .error "FileNotFoundError" ∧
    train_model [("c.yaml".data, cfgNoArch)] "c.yaml".data
      = .error ("KeyError: " ++ "architecture") ∧
    train_model [("c.yaml".data, cfgNoSeed)] "c.yaml".data
      = .error ("KeyError: " ++ "seed") ∧
    train_model [("c.yaml".data, cfgNoTrainDir)] "c.yaml".data
      = .error ("KeyError: " ++ "train_dir") ∧
    get_model "resnet50".data
      = .error ("ValueError: Unknown architecture: " ++ String.mk "resnet50".data) ∧
    train_model [("c.yaml".data, cfgBadArch)] "c.yaml".data
      = .error ("ValueError: Unknown architecture: " ++ String.mk "resnet50".data) :=
  ⟨c4_errors_propagate_unchanged.1 [] "config.yaml".data rfl,
   c4_errors_propagate_unchanged.2.1 _ _ cfgNoArch rfl rfl,
   c4_errors_propagate_unchanged.2.2.1 _ _ cfgNoSeed "mobilenetv2".data rfl rfl rfl,
   c4_errors_propagate_unchanged.2.2.2.1 _ _ cfgNoTrainDir "mobilenetv2".data 42
     rfl rfl rfl rfl,
   (c4_errors_propagate_unchanged.2.2.2.2.1 "resnet50".data).mpr (by decide),
   c4_errors_propagate_unchanged.2.2.2.2.2 _ _ cfgBadArch "resnet50".data 42
     "data/train".data "data/val".data 32 [224, 224, 3] 30 (1 / 2)
     "imagenet".data _ rfl rfl rfl rfl rfl rfl rfl rfl rfl rfl rfl⟩

/-- C6: whenever `convert_to_tflite` returns normally, the returned
path equals the `output_path` argument, the file at `output_path`
holds exactly the bytes the converter produced, and the parent
directory of `output_path` exists. -/
theorem c6_output_file_written (fs : FileSystem) (modelPath outputPath : Str)
    (quantize : Bool) (representativeDataDir : Option Str)
    (tfliteBytes : List ℕ) (fs' : FileSystem) (returned : Str)
    (converter : ConverterConfig)
    (h : convert_to_tflite fs modelPath outputPath quantize
          representativeDataDir tfliteBytes = .ok (fs', returned, converter)) :
    returned = outputPath ∧
    fs'.fsFiles.lookup outputPath = some tfliteBytes ∧
    dirname outputPath ∈ fs'.fsDirs := by
  unfold convert_to_tflite at h
  cases hm : fs.fsFiles.lookup modelPath with
  | none => rw [hm] at h; cases h
  | some bytes =>
    rw [hm] at h
    unfold makedirs at h
    by_cases hd : (dirname outputPath).isEmpty
    · rw [if_pos hd] at h; cases h
    · rw [if_neg hd] at h
      simp only [Except.ok.injEq, Prod.mk.injEq] at h
      obtain ⟨hfs, hret, hconv⟩ := h
      subst hfs
      refine ⟨hret.symm, ?_, ?_⟩
      · simp [writeFile, List.lookup]
      · simp [writeFile]

/-- A file system holding just the trained model file. -/
def fsWithModel : FileSystem :=
  ⟨[("model.h5".data, [9, 9])], []⟩

/-- The file system after converting the model: the tflite bytes at
the output path and the created output directory. -/
def fsAfterConvert : FileSystem :=
  ⟨[("models/leaf.tflite".data, [1, 2, 3]), ("model.h5".data, [9, 9])],
   ["models".data]⟩

/-- Witness for C6: converting the sample model writes the converter
bytes to the output path and returns that path. -/
theorem c6_output_file_written_witness :
    ("models/leaf.tflite".data : Str) = "models/leaf.tflite".data ∧
    fsAfterConvert.fsFiles.lookup "models/leaf.tflite".data = some [1, 2, 3] ∧
    dirname "models/leaf.tflite".data ∈ fsAfterConvert.fsDirs :=
  c6_output_file_written fsWithModel "model.h5".data "models/leaf.tflite".data
    false none [1, 2, 3] fsAfterConvert "models/leaf.tflite".data
    freshConverter rfl

/-- Reading lines of a newline-terminated first line splits it off. -/
theorem readLines_append (n s : Str) (h : '\n' ∉ n) :
    readLines (n ++ '\n' :: s) = (n ++ ['\n']) :: readLines s := by
  induction n with
  | nil => simp [readLines]
  | cons c n ih =>
    have hc : ¬ c = '\n' := fun e => h (e ▸ List.mem_cons_self c n)
    have hn : '\n' ∉ n := fun m => h (List.mem_cons_of_mem c m)
    simp only [List.cons_append, readLines, if_neg hc]
    simp only [List.append_eq]
    rw [ih hn]

/-- Stripping a name with no outer whitespace and a trailing newline
recovers the name. -/
theorem pyStrip_append_newline (n : Str)
    (h1 : lstripChars n = n) (h2 : rstripChars n = n) :
    pyStrip (n ++ ['\n']) = n := by
  cases n with
  | nil => rfl
  | cons c n =>
    have hc : pyIsSpace c = false := by
      rcases List.dropWhile_eq_self_iff.mp h1 (by simp) with hne
      simpa using hne
    have hl : lstripChars ((c :: n) ++ ['\n']) = (c :: n) ++ ['\n'] := by
      simp [lstripChars, List.dropWhile_cons, hc]
    rw [pyStrip, hl]
    have hrev : ((c :: n) ++ ['\n']).reverse = '\n' :: (c :: n).reverse := by
      simp
    rw [rstripChars, hrev]
    have hdrop : List.dropWhile pyIsSpace ('\n' :: (c :: n).reverse)
        = List.dropWhile pyIsSpace (c :: n).reverse := by
      simp [List.dropWhile_cons, pyIsSpace]
    rw [hdrop]
    have := congrArg List.reverse h2
    rw [rstripChars] at this
    simp only [List.reverse_reverse] at this
    rw [this, List.reverse_reverse]

/-- C10: saving class names and loading them back is the identity,
for every list of names containing no newline and no leading or
trailing whitespace. -/
theorem c10_class_names_round_trip (classNames : List Str)
    (h : ∀ name ∈ classNames,
        '\n' ∉ name ∧ lstripChars name = name ∧ rstripChars name = name) :
    load_class_names (save_class_names classNames) = classNames := by
  induction classNames with
  | nil => rfl
  | cons n ns ih =>
    obtain ⟨hn, hl, hr⟩ := h n (List.mem_cons_self n ns)
    have hns : ∀ name ∈ ns,
        '\n' ∉ name ∧ lstripChars name = name ∧ rstripChars name = name :=
      fun name hm => h name (List.mem_cons_of_mem n hm)
    show (readLines ((((n :: ns).map (fun name => name ++ ['\n']))).flatten)).map
        pyStrip = n :: ns
    simp only [List.map_cons, List.flatten_cons]
    have hassoc : (n ++ ['\n']) ++ ((ns.map (fun name => name ++ ['\n'])).flatten)
        = n ++ '\n' :: ((ns.map (fun name => name ++ ['\n'])).flatten) := by
      simp
    rw [hassoc, readLines_append _ _ hn]
    simp only [List.map_cons]
    rw [pyStrip_append_newline n hl hr]
    exact congrArg (n :: ·) (ih hns)

/-- Witness for C10: two concrete class names survive the save/load
round trip. -/
theorem c10_class_names_round_trip_witness :
    load_class_names (save_class_names ["healthy".data, "leaf_rust".data])
      = ["healthy".data, "leaf_rust".data] :=
  c10_class_names_round_trip ["healthy".data, "leaf_rust".data] (by decide)

end LeafDisease
